import Mathlib

/-!
Verification of the quiz single-page application (`quiz-application`,
`nickname-form`, `high-score`, `quiz-question`, `countdown-timer` custom
elements) against its natural-language specification.

The JavaScript source is shallowly embedded: each relevant method becomes a
Lean function on an explicit state type, DOM/event side effects become
explicit action lists, and JavaScript values (`undefined`, numbers including
`NaN`/`Infinity`, strings) become small inductive types.
-/

namespace TheQuiz

/-! ## JavaScript values reachable as the `limit` field of a question -/

/-- A JavaScript value that can appear as the `limit` field of a fetched
question: `undefined` (field missing), an integer number, or a string. -/
inductive JSVal where
  | undef
  | num (n : Int)
  | str (s : String)
deriving DecidableEq

/-- JavaScript truthiness of a `JSVal`: `undefined`, `0` and `""` are falsy. -/
def JSVal.truthy : JSVal → Bool
  | .undef => false
  | .num n => n != 0
  | .str s => s != ""

/-- Decimal digits at the front of a character list. -/
def leadingDigits (cs : List Char) : List Char :=
  cs.takeWhile Char.isDigit

/-- Numeric value of a list of decimal digits. -/
def digitsToNat (cs : List Char) : Nat :=
  cs.foldl (fun a c => a * 10 + (c.toNat - 48)) 0

/-- JavaScript `parseInt` restricted to decimal strings: skip leading
whitespace, read an optional sign and then leading digits; `none` represents
the `NaN` result when no digits are found. -/
def parseIntStr (s : String) : Option Int :=
  let cs := s.data.dropWhile Char.isWhitespace
  match cs with
  | '-' :: rest =>
      let ds := leadingDigits rest
      if ds.isEmpty then none else some (-(digitsToNat ds : Int))
  | '+' :: rest =>
      let ds := leadingDigits rest
      if ds.isEmpty then none else some (digitsToNat ds : Int)
  | _ =>
      let ds := leadingDigits cs
      if ds.isEmpty then none else some (digitsToNat ds : Int)

/-- JavaScript `String.prototype.trim`: strip whitespace from both ends. -/
def jsTrim (s : String) : String :=
  ⟨((s.data.dropWhile Char.isWhitespace).reverse.dropWhile Char.isWhitespace).reverse⟩

/-- JavaScript `parseInt` applied to a `JSVal` (the argument is coerced to a
string first; an integer number round-trips to itself, `undefined` gives
`NaN`). `none` represents `NaN`. -/
def jsParseInt : JSVal → Option Int
  | .undef => none
  | .num n => some n
  | .str s => parseIntStr s

/-! ## Quiz orchestrator: question fetching (`QuizApplication`) -/

/-- A fetched question as parsed from the quiz API response JSON. -/
structure Question where
  question : String
  alternatives : Option (List (String × String))
  nextURL : Option String
  limit : JSVal
deriving DecidableEq

/-- `QuizApplication.fetchQuestions`: the duration passed in the
`set-question` event is `data.limit ? parseInt(data.limit) : 20`.
`none` represents `NaN`. -/
def durationFetchQuestions (limit : JSVal) : Option Int :=
  if limit.truthy then jsParseInt limit else some 20

/-- `QuizApplication.fetchNextQuestion`: the duration passed in the
`set-question` event is `parseInt(this.currentQuestion.limit) || 20`
(both `NaN` and `0` are falsy and replaced by `20`). -/
def durationFetchNextQuestion (limit : JSVal) : Int :=
  match jsParseInt limit with
  | none => 20
  | some n => if n == 0 then 20 else n

/-- `CountdownTimer.startTimer`: an argument that is not a number, or is
`NaN` (`none`), is replaced by the default of `20`. -/
def effectiveTimerDuration (d : Option Int) : Int :=
  match d with
  | none => 20
  | some n => n

/-- Observable actions performed by a fetch handler: `console.error`
logging, dispatching the `set-question` event (with its duration payload,
`none` = `NaN`), and calling `showHighScore`. -/
inductive FetchAction where
  | logError
  | setQuestionEvent (q : Question) (duration : Option Int)
  | showHighScoreCall
deriving DecidableEq

/-- `QuizApplication.fetchQuestions`, as a function of the outcome of
`fetch`+`response.json()`: on success a single `set-question` event is
dispatched; on failure the error is logged and nothing else happens. -/
def fetchQuestionsActions : Except Unit Question → List FetchAction
  | .error _ => [.logError]
  | .ok q => [.setQuestionEvent q (durationFetchQuestions q.limit)]

/-- `QuizApplication.fetchNextQuestion`, as a function of the outcome of
`fetch`+`response.json()`: on success a single `set-question` event is
dispatched; on failure the error is logged and then
`this.showHighScore(this.totalTime)` is invoked. -/
def fetchNextQuestionActions : Except Unit Question → List FetchAction
  | .error _ => [.logError, .showHighScoreCall]
  | .ok q => [.setQuestionEvent q (some (durationFetchNextQuestion q.limit))]

/-! ## Countdown timer (`CountdownTimer`) -/

/-- State of the `CountdownTimer` element: `running` models whether
`intervalId` is non-null, `display` the text content of `#timer-display`. -/
structure TimerState where
  timeLeft : Int
  running : Bool
  totalTimeSpent : Int
  accumulatedTime : Int
  display : String
deriving DecidableEq

/-- The text `updateDisplay` writes for a given remaining time. -/
def displayText (t : Int) : String :=
  "Time Left: " ++ toString t ++ " s"

/-- `CountdownTimer.updateDisplay`. -/
def updateDisplay (s : TimerState) : TimerState :=
  { s with display := displayText s.timeLeft }

/-- `CountdownTimer.stopTimer`: if the interval is active, clear it, fold
`totalTimeSpent` into `accumulatedTime` and zero `totalTimeSpent`;
otherwise do nothing. -/
def stopTimer (s : TimerState) : TimerState :=
  if s.running then
    { s with running := false
             accumulatedTime := s.accumulatedTime + s.totalTimeSpent
             totalTimeSpent := 0 }
  else s

/-- `CountdownTimer.resetTotalTimeSpent`. -/
def resetTotalTimeSpent (s : TimerState) : TimerState :=
  { s with totalTimeSpent := 0 }

/-- `CountdownTimer.resetAccumulatedTime`. -/
def resetAccumulatedTime (s : TimerState) : TimerState :=
  { s with accumulatedTime := 0 }

/-- `CountdownTimer.resetAll`: stop the timer, reset `totalTimeSpent` and
`accumulatedTime`, and update the display. -/
def resetAll (s : TimerState) : TimerState :=
  updateDisplay (resetAccumulatedTime (resetTotalTimeSpent (stopTimer s)))

/-- `CountdownTimer.startTimer`: substitute 20 for an invalid duration,
stop any running interval, set `timeLeft`, update the display and start
the interval. -/
def startTimer (duration : Option Int) (s : TimerState) : TimerState :=
  let d := effectiveTimerDuration duration
  let s1 := stopTimer s
  updateDisplay { s1 with timeLeft := d, running := true }

/-- One firing of the interval callback in `startTimer`: while time is
left, decrement it, count the second and refresh the display; at zero,
stop the timer and dispatch `total-time-spent` carrying
`this.accumulatedTime` (returned as the second component). -/
def tick (s : TimerState) : TimerState × Option Int :=
  if 0 < s.timeLeft then
    (updateDisplay { s with timeLeft := s.timeLeft - 1
                            totalTimeSpent := s.totalTimeSpent + 1 }, none)
  else
    let s1 := stopTimer s
    (s1, some s1.accumulatedTime)

/-- Run up to `n` interval firings, stopping early once the interval has
been cleared; collects the payloads of all dispatched `total-time-spent`
events. -/
def runTicks : Nat → TimerState → TimerState × List Int
  | 0, s => (s, [])
  | n + 1, s =>
      if s.running then
        let p := tick s
        let q := runTicks n p.1
        (q.1, p.2.toList ++ q.2)
      else (s, [])

/-! ## High-score entries and the persistence logic of
`QuizApplication.showHighScore` -/

/-- A high-score entry `{nickname, score}` as recorded by the
orchestrator (recorded scores are integer second counts). -/
structure Entry where
  nickname : String
  score : Int
deriving DecidableEq

/-- The predicate of the duplicate check in `showHighScore`:
`score.nickname === newHighScore.nickname && score.score === newHighScore.score`. -/
def pairMatch (nick : String) (sc : Int) (e : Entry) : Bool :=
  e.nickname == nick && e.score == sc

/-- Whether `highScores.findIndex(...)` finds an entry with the exact same
nickname and score. -/
def findPair (hs : List Entry) (nick : String) (sc : Int) : Bool :=
  (hs.find? (pairMatch nick sc)).isSome

/-- `highScores.sort((a, b) => a.score - b.score)`: ascending by score. -/
def sortByScore (l : List Entry) : List Entry :=
  l.insertionSort (fun a b => a.score ≤ b.score)

/-- The storage-update logic of `QuizApplication.showHighScore`: if the
nickname is non-empty after trimming and no entry with the exact same
`(nickname, score)` pair exists, push the new entry and sort ascending by
score; otherwise leave the history unchanged. -/
def recordScore (hs : List Entry) (nick : String) (sc : Int) : List Entry :=
  if jsTrim nick != "" then
    if findPair hs nick sc then hs
    else sortByScore (hs ++ [{ nickname := nick, score := sc }])
  else hs

/-- Number of entries in a history equal to the exact `(nickname, score)`
pair. -/
def pairCount (hs : List Entry) (nick : String) (sc : Int) : Nat :=
  hs.countP (pairMatch nick sc)

/-! ## Quiz orchestrator state (`QuizApplication`) -/

/-- The `localStorage` keys the application touches; `none` means the key
is absent. The `highScores` key holds the parsed entry list (its JSON
serialization is transparent at this level; malformed stored text is
modelled separately by `loadHighScores`). -/
structure Storage where
  highScores : Option (List Entry)
  nicknameKey : Option String
  quizScore : Option String
deriving DecidableEq

/-- Orchestrator-owned state: session fields, the idempotency guard
`highScoreShown`, the visibility (non-`hidden` class) of the four child
elements, the nickname form's input field value, and storage. -/
structure AppState where
  nickname : String
  score : Int
  currentQuestionIndex : Int
  highScoreShown : Bool
  visForm : Bool
  visQuestion : Bool
  visTimer : Bool
  visHighScore : Bool
  nicknameInput : String
  storage : Storage
deriving DecidableEq

/-- Events and calls `showHighScore`/`restartQuiz` emit besides their state
update: the window `stop-timer` event, the window `high-score` event, and
the direct `countdownTimer.resetAll()` call. -/
inductive AppEffect where
  | stopTimerEvent
  | highScoreEvent (nickname : String) (score : Int)
  | resetTimerCall
deriving DecidableEq

/-- `QuizApplication.showHighScore`: guarded by `highScoreShown`; when it
runs, it dispatches `stop-timer`, sets the guard, hides the question,
timer and form, appends the score to the persisted history unless the
trimmed nickname is empty or an identical entry exists (dispatching the
`high-score` event on append), and reveals the high-score board. -/
def showHighScore (s : AppState) (accumulatedTime : Int) : AppState × List AppEffect :=
  if s.highScoreShown then (s, [])
  else
    let s1 := { s with highScoreShown := true
                       visQuestion := false
                       visTimer := false
                       visForm := false }
    let hs := s1.storage.highScores.getD []
    if jsTrim s1.nickname != "" && !(findPair hs s1.nickname accumulatedTime) then
      let hs2 := sortByScore (hs ++ [{ nickname := s1.nickname, score := accumulatedTime }])
      ({ s1 with storage := { s1.storage with highScores := some hs2 }
                 visHighScore := true },
       [AppEffect.stopTimerEvent, AppEffect.highScoreEvent s1.nickname accumulatedTime])
    else
      ({ s1 with visHighScore := true }, [AppEffect.stopTimerEvent])

/-- `QuizApplication.restartQuiz`: dispatch `stop-timer`, call
`countdownTimer.resetAll()`, hide the high-score board, reset the score
and question index, remove the `quizScore` and `nickname` storage keys,
clear the nickname input field, hide the question and timer, re-show the
nickname form, and reset the idempotency guard. The `highScores` storage
key is not touched. -/
def restartQuiz (s : AppState) : AppState × List AppEffect :=
  ({ s with visHighScore := false
            currentQuestionIndex := 0
            score := 0
            storage := { s.storage with quizScore := none, nicknameKey := none }
            nicknameInput := ""
            visQuestion := false
            visTimer := false
            visForm := true
            highScoreShown := false },
   [AppEffect.stopTimerEvent, AppEffect.resetTimerCall])

/-! ## Loading the persisted history: `JSON.parse(localStorage.getItem('highScores')) || []`
(used identically in the `QuizApplication` constructor and in
`highScore.connectedCallback` / `highScore.render`) -/

/-- A parsed JSON value, to the granularity the load expression observes:
`obj` stands for any object (distinguished by a tag). -/
inductive JsonVal where
  | null
  | boolean (b : Bool)
  | num (n : Int)
  | str (s : String)
  | arr (xs : List JsonVal)
  | obj (tag : Nat)

/-- JavaScript truthiness of a parsed JSON value: `null`, `false`, `0` and
`""` are falsy; every array and object is truthy. -/
def JsonVal.truthy : JsonVal → Bool
  | .null => false
  | .boolean b => b
  | .num n => n != 0
  | .str s => s != ""
  | .arr _ => true
  | .obj _ => true

/-- The outcome of `JSON.parse` on the stored text: `failed` when the text
is not valid JSON (the call throws), otherwise the parsed value. An absent
key makes `getItem` return `null`, which `JSON.parse` coerces to the text
`null` and parses to the JSON value `null`. -/
inductive JsParse where
  | failed
  | value (v : JsonVal)

/-- The load expression `JSON.parse(localStorage.getItem('highScores')) || []`.
There is no surrounding `try`/`catch` in the constructor,
`connectedCallback` or `render`, so a parse failure propagates as an
uncaught exception (`Except.error`); a parsed value is replaced by the
empty array only when it is falsy. -/
def loadHighScores : JsParse → Except Unit JsonVal
  | .failed => .error ()
  | .value v => .ok (if v.truthy then v else .arr [])

/-! ## Rendering the board: `highScore.render` -/

/-- The `score` field of a stored entry as a JavaScript value: a finite
number, one of the two infinities, `NaN`, or a value that is not of number
type at all (including a missing field). -/
inductive JScore where
  | fin (n : Int)
  | posInf
  | negInf
  | nan
  | notNum
deriving DecidableEq

/-- Whether a score is a finite number. -/
def JScore.isFinite : JScore → Bool
  | .fin _ => true
  | _ => false

/-- A stored entry as `render` sees it. -/
structure RawEntry where
  nickname : String
  score : JScore
deriving DecidableEq

/-- An element of the stored array: `falsy` models `null` (or any other
falsy element, rejected by the `entry &&` check). -/
inductive RawItem where
  | falsy
  | item (e : RawEntry)
deriving DecidableEq

/-- `typeof entry.score === 'number' && !isNaN(entry.score)`: true for
finite numbers and both infinities, false for `NaN` and non-number
values. -/
def scoreKept : JScore → Bool
  | .fin _ => true
  | .posInf => true
  | .negInf => true
  | .nan => false
  | .notNum => false

/-- The filter `entry && typeof entry.score === 'number' && !isNaN(entry.score)`:
keeps entries whose score is of number type and not `NaN` (this keeps the
infinities, for which `isNaN` is false). -/
def keepEntry : RawItem → Option RawEntry
  | .falsy => none
  | .item e => if scoreKept e.score then some e else none

/-- Order key realising the comparator `(a, b) => a.score - b.score` on
filtered scores (`-Infinity` below every finite number, `+Infinity` above;
equal infinities compare as equal because the `NaN` comparator result is
treated as `0`). `nan`/`notNum` never reach the comparator; they are
given an arbitrary finite key. -/
def scoreRank : JScore → WithBot (WithTop Int)
  | .negInf => ⊥
  | .posInf => ((⊤ : WithTop Int) : WithBot (WithTop Int))
  | .fin n => (((n : Int) : WithTop Int) : WithBot (WithTop Int))
  | .nan => (((0 : Int) : WithTop Int) : WithBot (WithTop Int))
  | .notNum => (((0 : Int) : WithTop Int) : WithBot (WithTop Int))

/-- The sorting order of `highScore.render`. -/
def entryLE (a b : RawEntry) : Prop :=
  scoreRank a.score ≤ scoreRank b.score

instance : DecidableRel entryLE :=
  fun a b => inferInstanceAs (Decidable (scoreRank a.score ≤ scoreRank b.score))

instance : IsTotal RawEntry entryLE :=
  ⟨fun a b => le_total (scoreRank a.score) (scoreRank b.score)⟩

instance : IsTrans RawEntry entryLE :=
  ⟨fun _ _ _ hab hbc => le_trans hab hbc⟩

/-- `highScore.render`: filter the stored array, sort ascending by score,
and keep the first five entries. -/
def renderTopFive (items : List RawItem) : List RawEntry :=
  ((items.filterMap keepEntry).insertionSort entryLE).take 5

/-! ## Answer submission: `QuizQuestion.setQuestion` and
`QuizQuestion.handleAnswerClick` -/

/-- `QuizQuestion.setQuestion` renders radio buttons exactly when
`alternatives` is a (truthy) object with between 2 and 10 keys; otherwise
it renders a free-text input. -/
def choiceMode (alternatives : Option (List (String × String))) : Bool :=
  match alternatives with
  | some l => decide (2 ≤ l.length) && decide (l.length ≤ 10)
  | none => false

/-- `QuizQuestion.handleAnswerClick`: the `selectedAnswer` detail of the
`answer-selected` event it always dispatches. With alternatives present it
is the value of the checked radio button, or `null` (`none`) when none is
checked; without alternatives it is the trimmed value of the text input. -/
def handleAnswerClick (alternatives : Option (List (String × String)))
    (checkedRadio : Option String) (inputValue : String) : Option String :=
  match alternatives with
  | some _ =>
      match checkedRadio with
      | some v => some v
      | none => none
  | none => some (jsTrim inputValue)

/-- The submit-button click listener installed by `setQuestion` in
free-text mode: it always invokes `handleAnswerClick`, so an
`answer-selected` event is always dispatched; the result is the detail of
that event. -/
def freeTextSubmitClick (inputValue : String) : Option (Option String) :=
  some (handleAnswerClick none none inputValue)

/-- The `Enter`-key listener installed by `setQuestion` on the free-text
input: identical to the submit-button listener. -/
def freeTextEnterKey (inputValue : String) : Option (Option String) :=
  some (handleAnswerClick none none inputValue)

/-- The submit-button click listener installed by `setQuestion` in choice
mode: it invokes `handleAnswerClick` only when some radio button is
checked; with no selection, no event is dispatched (`none`). -/
def choiceSubmitClick (alternatives : List (String × String))
    (checkedRadio : Option String) : Option (Option String) :=
  match checkedRadio with
  | some _ => some (handleAnswerClick (some alternatives) checkedRadio "")
  | none => none

/-! ## Theorems -/

/-- Claim C1 counterexample: for the question field `limit = -5` — not a
valid positive integer, so the claim demands an effective duration of 20 —
both fetch handlers broadcast the duration `-5`, and the timer does not
substitute 20 for it either. -/
theorem claim_C1_cex :
    durationFetchQuestions (JSVal.num (-5)) = some (-5)
    ∧ durationFetchNextQuestion (JSVal.num (-5)) = -5
    ∧ effectiveTimerDuration (durationFetchQuestions (JSVal.num (-5))) ≠ 20 := by
  refine ⟨rfl, rfl, ?_⟩
  decide

/-- Claim C1 (amended): each fetch handler broadcasts the question together
with its computed duration in a single `set-question` event. A valid
positive integer `limit` yields that value and a missing or zero `limit`
yields 20 in both handlers; but a negative `limit` is broadcast as the
negative value itself, and a truthy non-numeric `limit` is broadcast as
`NaN` by `fetchQuestions` (which the timer then replaces by 20) and as 20
by `fetchNextQuestion`. -/
theorem claim_C1_amended (q : Question) (n : Int) (s : String) :
    (fetchQuestionsActions (Except.ok q)
        = [FetchAction.setQuestionEvent q (durationFetchQuestions q.limit)]
      ∧ fetchNextQuestionActions (Except.ok q)
        = [FetchAction.setQuestionEvent q (some (durationFetchNextQuestion q.limit))])
    ∧ (0 < n → durationFetchQuestions (JSVal.num n) = some n
        ∧ durationFetchNextQuestion (JSVal.num n) = n)
    ∧ (durationFetchQuestions JSVal.undef = some 20
        ∧ durationFetchNextQuestion JSVal.undef = 20)
    ∧ (durationFetchQuestions (JSVal.num 0) = some 20
        ∧ durationFetchNextQuestion (JSVal.num 0) = 20)
    ∧ (n < 0 → durationFetchQuestions (JSVal.num n) = some n
        ∧ durationFetchNextQuestion (JSVal.num n) = n)
    ∧ (s ≠ "" → parseIntStr s = none →
        durationFetchQuestions (JSVal.str s) = none
        ∧ effectiveTimerDuration (durationFetchQuestions (JSVal.str s)) = 20
        ∧ durationFetchNextQuestion (JSVal.str s) = 20) := by
  refine ⟨⟨rfl, rfl⟩, ?_, ⟨rfl, rfl⟩, ⟨rfl, rfl⟩, ?_, ?_⟩
  · intro hn
    have h : n ≠ 0 := by omega
    simp [durationFetchQuestions, durationFetchNextQuestion, JSVal.truthy, jsParseInt, h]
  · intro hn
    have h : n ≠ 0 := by omega
    simp [durationFetchQuestions, durationFetchNextQuestion, JSVal.truthy, jsParseInt, h]
  · intro hs hp
    simp [durationFetchQuestions, durationFetchNextQuestion, JSVal.truthy, jsParseInt,
      effectiveTimerDuration, hs, hp]

/-- A concrete question used to instantiate the fetch theorems. -/
def sampleQuestion : Question :=
  { question := "2+2?", alternatives := some [("a", "3"), ("b", "4")],
    nextURL := some "/q/2", limit := JSVal.num 7 }

/-- Witness for claim C1 (amended), instantiated at limits 7, -5 and a
non-numeric string. -/
theorem claim_C1_witness :
    (durationFetchQuestions (JSVal.num 7) = some 7
      ∧ durationFetchNextQuestion (JSVal.num 7) = 7)
    ∧ (durationFetchQuestions (JSVal.num (-5)) = some (-5)
      ∧ durationFetchNextQuestion (JSVal.num (-5)) = -5)
    ∧ (durationFetchQuestions (JSVal.str "abc") = none
      ∧ effectiveTimerDuration (durationFetchQuestions (JSVal.str "abc")) = 20
      ∧ durationFetchNextQuestion (JSVal.str "abc") = 20) :=
  ⟨(claim_C1_amended sampleQuestion 7 "abc").2.1 (by decide),
   (claim_C1_amended sampleQuestion (-5) "abc").2.2.2.2.1 (by decide),
   (claim_C1_amended sampleQuestion 7 "abc").2.2.2.2.2 (by decide) (by decide)⟩

/-- Claim C2 counterexample: on a timer state with 7 seconds remaining,
`resetAll` leaves the remaining time at 7 — not zero — and the refreshed
display keeps showing those 7 seconds rather than a cleared remaining
time. -/
theorem claim_C2_cex :
    (resetAll { timeLeft := 7, running := false, totalTimeSpent := 0,
                accumulatedTime := 5, display := "x" }).timeLeft ≠ 0
    ∧ (resetAll { timeLeft := 7, running := false, totalTimeSpent := 0,
                  accumulatedTime := 5, display := "x" }).display ≠ displayText 0 := by
  constructor
  · decide
  · decide

/-- Claim C2 (amended): from any timer state, `resetAll` stops the timer
and zeroes the elapsed-time and accumulated-time state, and refreshes the
visible display — but the remaining-time state is left unchanged and the
display therefore shows the old remaining time, not a cleared one. -/
theorem claim_C2_amended (s : TimerState) :
    resetAll s = { timeLeft := s.timeLeft, running := false, totalTimeSpent := 0,
                   accumulatedTime := 0, display := displayText s.timeLeft } := by
  cases s with
  | mk tl r tt acc d => cases r <;> rfl

/-- Claim C3 counterexample: with the stored high-score value being
non-JSON text, `JSON.parse` throws and nothing catches it, so loading the
history raises instead of yielding the empty history; and with the stored
value being the well-formed but wrongly shaped JSON `5`, loading yields
`5` itself, not the empty history. -/
theorem claim_C3_cex :
    loadHighScores JsParse.failed ≠ Except.ok (JsonVal.arr [])
    ∧ loadHighScores (JsParse.value (JsonVal.num 5)) ≠ Except.ok (JsonVal.arr []) := by
  constructor
  · simp [loadHighScores]
  · simp [loadHighScores, JsonVal.truthy]

/-- Claim C3 (amended): absent data (parsed `null`) and any falsy parsed
value yield the empty history; but malformed non-JSON text makes the load
raise an uncaught parse error, and a truthy JSON value of the wrong shape
is used as-is rather than being treated as empty. -/
theorem claim_C3_amended (v : JsonVal) :
    loadHighScores (JsParse.value JsonVal.null) = Except.ok (JsonVal.arr [])
    ∧ loadHighScores JsParse.failed = Except.error ()
    ∧ (v.truthy = true → loadHighScores (JsParse.value v) = Except.ok v)
    ∧ (v.truthy = false → loadHighScores (JsParse.value v) = Except.ok (JsonVal.arr [])) := by
  refine ⟨rfl, rfl, ?_, ?_⟩ <;> intro h <;> simp [loadHighScores, h]

/-- Witness for claim C3 (amended), at the truthy value `5` and the falsy
value `0`. -/
theorem claim_C3_witness :
    loadHighScores (JsParse.value (JsonVal.num 5)) = Except.ok (JsonVal.num 5)
    ∧ loadHighScores (JsParse.value (JsonVal.num 0)) = Except.ok (JsonVal.arr []) :=
  ⟨(claim_C3_amended (JsonVal.num 5)).2.2.1 rfl,
   (claim_C3_amended (JsonVal.num 0)).2.2.2 rfl⟩

/-- Claim C4 counterexample: on a fetch failure, `fetchNextQuestion` does
not merely log — it invokes `showHighScore`, transitioning the session
towards the completed/high-score state. -/
theorem claim_C4_cex :
    FetchAction.showHighScoreCall ∈ fetchNextQuestionActions (Except.error ()) := by
  simp [fetchNextQuestionActions]

/-- Claim C4 (amended): on a network or parse failure, `fetchQuestions`
only logs the error (no retry, no user-facing error, no state change), but
`fetchNextQuestion` logs the error and then calls `showHighScore` with the
last recorded total time, transitioning to the completed/high-score
state. -/
theorem claim_C4_amended :
    fetchQuestionsActions (Except.error ()) = [FetchAction.logError]
    ∧ fetchNextQuestionActions (Except.error ())
        = [FetchAction.logError, FetchAction.showHighScoreCall] :=
  ⟨rfl, rfl⟩

/-- Claim C9: restarting clears the nickname input field, removes the
persisted in-progress `nickname` (and `quizScore`) keys, zeroes the
session score and question index, resets the completion guard, re-shows
the nickname form while hiding the question, timer and high-score board,
and leaves the persisted high-score history exactly as it was. -/
theorem claim_C9 (s : AppState) :
    (restartQuiz s).1.nicknameInput = ""
    ∧ (restartQuiz s).1.storage.nicknameKey = none
    ∧ (restartQuiz s).1.storage.quizScore = none
    ∧ (restartQuiz s).1.score = 0
    ∧ (restartQuiz s).1.currentQuestionIndex = 0
    ∧ (restartQuiz s).1.highScoreShown = false
    ∧ (restartQuiz s).1.visForm = true
    ∧ (restartQuiz s).1.visQuestion = false
    ∧ (restartQuiz s).1.visTimer = false
    ∧ (restartQuiz s).1.visHighScore = false
    ∧ (restartQuiz s).1.storage.highScores = s.storage.highScores :=
  ⟨rfl, rfl, rfl, rfl, rfl, rfl, rfl, rfl, rfl, rfl, rfl⟩

/-- Claim C10: in free-text mode (no alternatives), both the submit-button
click and the Enter key always dispatch `answer-selected` carrying the
trimmed input value — including the empty string — whereas the choice-mode
submit with no radio checked dispatches nothing. -/
theorem claim_C10 (input : String) (alts : List (String × String)) :
    freeTextSubmitClick input = some (some (jsTrim input))
    ∧ freeTextEnterKey input = some (some (jsTrim input))
    ∧ freeTextSubmitClick "" = some (some "")
    ∧ choiceSubmitClick alts none = none
    ∧ choiceMode none = false :=
  ⟨rfl, rfl, by decide, rfl, rfl⟩

/-- Claim C5: starting from a session whose completion guard is clear,
running the completion handler sets the guard; any later completion
trigger is a silent no-op (unchanged state, no effects); and restarting
resets the guard. -/
theorem claim_C5 (s : AppState) (t1 t2 : Int) (h : s.highScoreShown = false) :
    ((showHighScore s t1).1.highScoreShown = true)
    ∧ (showHighScore (showHighScore s t1).1 t2 = ((showHighScore s t1).1, []))
    ∧ ((restartQuiz (showHighScore s t1).1).1.highScoreShown = false) := by
  by_cases hc : (jsTrim s.nickname != ""
      && !findPair (s.storage.highScores.getD []) s.nickname t1) = true
  · simp [showHighScore, restartQuiz, h, hc]
  · simp [showHighScore, restartQuiz, h, hc]

/-- A concrete fresh application state used to instantiate the guard
theorem. -/
def sampleApp : AppState :=
  { nickname := "ada", score := 0, currentQuestionIndex := 0, highScoreShown := false,
    visForm := true, visQuestion := false, visTimer := false, visHighScore := false,
    nicknameInput := "",
    storage := { highScores := none, nicknameKey := none, quizScore := none } }

/-- Witness for claim C5 on a concrete fresh session. -/
theorem claim_C5_witness :
    ((showHighScore sampleApp 3).1.highScoreShown = true)
    ∧ (showHighScore (showHighScore sampleApp 3).1 4 = ((showHighScore sampleApp 3).1, []))
    ∧ ((restartQuiz (showHighScore sampleApp 3).1).1.highScoreShown = false) :=
  claim_C5 sampleApp 3 4 rfl

/-- Claim C6: an entry is appended to the persisted history only if no
entry with the exact same `(nickname, score)` pair already exists; and
recording the same pair twice (from a history not containing it) leaves
exactly one stored entry for that pair. -/
theorem claim_C6 (hs : List Entry) (nick : String) (sc : Int) :
    (findPair hs nick sc = true → recordScore hs nick sc = hs)
    ∧ (jsTrim nick ≠ "" → pairCount hs nick sc = 0 →
        pairCount (recordScore (recordScore hs nick sc) nick sc) nick sc = 1) := by
  constructor
  · intro hf
    unfold recordScore
    rw [hf]
    simp
  · intro hn h0
    have hnb : (jsTrim nick != "") = true := bne_iff_ne.mpr hn
    have hall : ∀ e ∈ hs, ¬ pairMatch nick sc e = true := List.countP_eq_zero.mp h0
    have hnone : hs.find? (pairMatch nick sc) = none := List.find?_eq_none.mpr hall
    have hfind : findPair hs nick sc = false := by
      unfold findPair
      rw [hnone]
      rfl
    have h1 : recordScore hs nick sc
        = sortByScore (hs ++ [{ nickname := nick, score := sc }]) := by
      unfold recordScore
      rw [hnb, hfind]
      simp
    have hperm : List.Perm (sortByScore (hs ++ [{ nickname := nick, score := sc }]))
        (hs ++ [{ nickname := nick, score := sc }]) :=
      List.perm_insertionSort _ _
    have hcnt : pairCount (sortByScore (hs ++ [{ nickname := nick, score := sc }])) nick sc = 1 := by
      unfold pairCount
      rw [hperm.countP_eq, List.countP_append]
      unfold pairCount at h0
      rw [h0]
      simp [pairMatch]
    have hmem : ({ nickname := nick, score := sc } : Entry)
        ∈ sortByScore (hs ++ [{ nickname := nick, score := sc }]) :=
      hperm.mem_iff.mpr (by simp)
    have hfind2 : findPair (sortByScore (hs ++ [{ nickname := nick, score := sc }])) nick sc = true := by
      unfold findPair
      exact List.find?_isSome.mpr ⟨_, hmem, by simp [pairMatch]⟩
    have h2 : recordScore (sortByScore (hs ++ [{ nickname := nick, score := sc }])) nick sc
        = sortByScore (hs ++ [{ nickname := nick, score := sc }]) := by
      unfold recordScore
      rw [hnb, hfind2]
      simp
    rw [h1, h2]
    exact hcnt

/-- Witness for claim C6: the pair is not re-appended when present, and
recording `("ada", 3)` twice from the empty history stores it once. -/
theorem claim_C6_witness :
    recordScore [{ nickname := "ada", score := 3 }] "ada" 3
      = [{ nickname := "ada", score := 3 }]
    ∧ pairCount (recordScore (recordScore [] "ada" 3) "ada" 3) "ada" 3 = 1 :=
  ⟨(claim_C6 [{ nickname := "ada", score := 3 }] "ada" 3).1 (by decide),
   (claim_C6 [] "ada" 3).2 (by decide) (by decide)⟩

/-- Claim C7 counterexample: a persisted history whose single entry has
score `Infinity` (reachable from JSON such as `1e999`) is rendered
unchanged — the non-finite score passes the `isNaN` filter, so not every
entry with a non-finite score is excluded. -/
theorem claim_C7_cex :
    renderTopFive [RawItem.item { nickname := "a", score := JScore.posInf }]
      = [{ nickname := "a", score := JScore.posInf }]
    ∧ JScore.isFinite JScore.posInf = false := by
  constructor
  · rfl
  · rfl

/-- Claim C7 (amended): for every persisted history, rendering produces at
most 5 entries, sorted ascending by score, with every entry whose score is
not of number type or is `NaN` excluded before sorting and truncation;
entries with score `±Infinity` are however not excluded. -/
theorem claim_C7_amended (items : List RawItem) :
    (renderTopFive items).length ≤ 5
    ∧ List.Sorted entryLE (renderTopFive items)
    ∧ ∀ e ∈ renderTopFive items, scoreKept e.score = true := by
  refine ⟨List.length_take_le 5 _, ?_, ?_⟩
  · exact List.Pairwise.sublist (List.take_sublist 5 _)
      (List.sorted_insertionSort entryLE _)
  · intro e he
    have h1 : e ∈ (items.filterMap keepEntry).insertionSort entryLE :=
      List.mem_of_mem_take he
    have h2 : e ∈ items.filterMap keepEntry :=
      (List.perm_insertionSort entryLE _).mem_iff.mp h1
    obtain ⟨a, _, ha⟩ := List.mem_filterMap.mp h2
    cases a with
    | falsy => simp [keepEntry] at ha
    | item e0 =>
        simp only [keepEntry] at ha
        by_cases hb : scoreKept e0.score = true
        · rw [if_pos hb] at ha
          obtain rfl : e0 = e := Option.some.inj ha
          exact hb
        · rw [if_neg hb] at ha
          exact absurd ha (by simp)

/-- Witness for claim C7 (amended) on a concrete one-entry history. -/
theorem claim_C7_witness :
    (renderTopFive [RawItem.item { nickname := "b", score := JScore.fin 1 }]).length ≤ 5
    ∧ List.Sorted entryLE
        (renderTopFive [RawItem.item { nickname := "b", score := JScore.fin 1 }])
    ∧ scoreKept (JScore.fin 1) = true :=
  ⟨(claim_C7_amended [RawItem.item { nickname := "b", score := JScore.fin 1 }]).1,
   (claim_C7_amended [RawItem.item { nickname := "b", score := JScore.fin 1 }]).2.1,
   (claim_C7_amended [RawItem.item { nickname := "b", score := JScore.fin 1 }]).2.2
     { nickname := "b", score := JScore.fin 1 } (by decide)⟩

/-- One interval firing with time still left: the tick decrements, counts
the second, emits nothing, and the run continues. -/
theorem runTicks_succ (n : Nat) (s : TimerState) (hr : s.running = true)
    (hpos : 0 < s.timeLeft) :
    runTicks (n + 1) s
      = runTicks n (updateDisplay { s with timeLeft := s.timeLeft - 1
                                           totalTimeSpent := s.totalTimeSpent + 1 }) := by
  simp only [runTicks]
  simp [hr, tick, hpos]

/-- Letting the timer run from `k` seconds remaining to the firing at
zero: exactly one `total-time-spent` event is dispatched, carrying the
accumulated time plus the elapsed `totalTimeSpent` plus the `k` counted
seconds, and the timer has stopped itself. -/
theorem runTicks_run (k : Nat) :
    ∀ s : TimerState, s.running = true → s.timeLeft = (k : Int) →
      (runTicks (k + 1) s).2
          = [s.accumulatedTime + s.totalTimeSpent + (k : Int)]
        ∧ ((runTicks (k + 1) s).1).running = false := by
  induction k with
  | zero =>
      intro s hr ht
      constructor <;> simp [runTicks, tick, ht, stopTimer, hr]
  | succ n ih =>
      intro s hr ht
      have hpos : 0 < s.timeLeft := by
        rw [ht]
        exact_mod_cast Nat.succ_pos n
      rw [runTicks_succ (n + 1) s hr hpos]
      have hr1 : (updateDisplay { s with timeLeft := s.timeLeft - 1
                                         totalTimeSpent := s.totalTimeSpent + 1 }).running
          = true := hr
      have ht1 : (updateDisplay { s with timeLeft := s.timeLeft - 1
                                         totalTimeSpent := s.totalTimeSpent + 1 }).timeLeft
          = (n : Int) := by
        show s.timeLeft - 1 = (n : Int)
        rw [ht]
        push_cast
        ring
      obtain ⟨h2, h3⟩ := ih _ hr1 ht1
      refine ⟨?_, h3⟩
      rw [h2]
      show [s.accumulatedTime + (s.totalTimeSpent + 1) + (n : Int)]
        = [s.accumulatedTime + s.totalTimeSpent + ((n + 1 : Nat) : Int)]
      congr 1
      push_cast
      ring

/-- Claim C8: starting a stopped timer with a duration `d > 0` and letting
it run to zero makes the timer stop itself and emit exactly one
`total-time-spent` event, whose carried total is exactly `d` on top of the
previously accumulated time (so in particular within ±1 of it). -/
theorem claim_C8 (d : Int) (s : TimerState) (hd : 0 < d) (hr : s.running = false)
    (ht : s.totalTimeSpent = 0) :
    (runTicks (d.toNat + 1) (startTimer (some d) s)).2 = [s.accumulatedTime + d]
    ∧ ((runTicks (d.toNat + 1) (startTimer (some d) s)).1).running = false := by
  have hstop : stopTimer s = s := by simp [stopTimer, hr]
  have hr1 : (startTimer (some d) s).running = true := rfl
  have ht1 : (startTimer (some d) s).timeLeft = (d.toNat : Int) := by
    show d = (d.toNat : Int)
    omega
  obtain ⟨h2, h3⟩ := runTicks_run d.toNat _ hr1 ht1
  refine ⟨?_, h3⟩
  rw [h2]
  show [(stopTimer s).accumulatedTime + (stopTimer s).totalTimeSpent + (d.toNat : Int)]
    = [s.accumulatedTime + d]
  rw [hstop, ht]
  congr 1
  omega

/-- A concrete stopped timer with some previously accumulated time. -/
def sampleTimer : TimerState :=
  { timeLeft := 0, running := false, totalTimeSpent := 0, accumulatedTime := 2,
    display := "" }

/-- Witness for claim C8 with duration 5 on a concrete stopped timer. -/
theorem claim_C8_witness :
    (runTicks ((5 : Int).toNat + 1) (startTimer (some 5) sampleTimer)).2
        = [sampleTimer.accumulatedTime + 5]
    ∧ ((runTicks ((5 : Int).toNat + 1) (startTimer (some 5) sampleTimer)).1).running
        = false :=
  claim_C8 5 sampleTimer (by decide) rfl rfl

end TheQuiz
